import Mathlib

/-!
# Verification of the `ipp` repository's IPP codec and dispatch layer

Shallow embedding of the Rust sources under `src/encoder` (the IPP
tag-length-value codec) and `src/server/src/printer/mod.rs` (the request
dispatch / validation state machine).

Modelling conventions:
* A byte buffer is a `List Nat` whose elements are byte values (< 256);
  encoders reduce mod 256 / mod 65536 exactly where the Rust code performs
  an `as u8` / `as u16` cast.
* A Rust `String` is modelled by its UTF-8 byte sequence (`RString`);
  keyword literals are ASCII so `Char.toNat` gives the byte values.
* Rust panics (out-of-bounds slice, `unwrap`, `unreachable!`, chrono
  constructor panics) are modelled as `Option.none`. The codec has no typed
  error type of its own, so `none` always means "the Rust code panics here".
* `chrono::DateTime<Utc>` is modelled as a record of the calendar fields the
  code reads/writes (`DT`); its timezone is always UTC, so
  `timezone().fix().local_minus_utc()` is the constant `0`.
* Loops are translated with an explicit fuel argument (`bytes.length + 1` is
  always enough because every successful iteration consumes at least one
  byte); running out of fuel yields `none`.
-/

namespace Ipp

/-- UTF-8 byte sequence of a Rust `String`. -/
abbrev RString := List Nat

/-- Byte list of an ASCII string literal. -/
def ascii (s : String) : RString := s.data.map Char.toNat

/-- Big-endian bytes of `u16::to_be_bytes` (the Rust value is first cast
`as u16`, hence the reduction mod 65536). -/
def u16be (n : Nat) : List Nat := [n % 65536 / 256, n % 256]

/-- Big-endian bytes of `u32::to_be_bytes` (value reduced mod 2^32). -/
def u32be (n : Nat) : List Nat :=
  [n % 4294967296 / 16777216, n % 16777216 / 65536, n % 65536 / 256, n % 256]

/-- Read one byte; `none` models the panic of an out-of-range Rust slice. -/
def readU8 (b : List Nat) (i : Nat) : Option Nat := b[i]?

/-- Read a 2-byte big-endian `u16` starting at `i`. -/
def readU16 (b : List Nat) (i : Nat) : Option Nat := do
  let hi ← b[i]?
  let lo ← b[i+1]?
  pure (hi * 256 + lo)

/-- Read a 4-byte big-endian `u32` starting at `i`. -/
def readU32 (b : List Nat) (i : Nat) : Option Nat := do
  let b0 ← b[i]?
  let b1 ← b[i+1]?
  let b2 ← b[i+2]?
  let b3 ← b[i+3]?
  pure (((b0 * 256 + b1) * 256 + b2) * 256 + b3)

/-- Reinterpret a byte value as Rust `i8` (`as i8` on a `u8`). -/
def toI8 (n : Nat) : Int := if n % 256 < 128 then (n % 256 : Int) else (n % 256 : Int) - 256

/-- Reinterpret a `u32` bit pattern as Rust `i32` (`i32::from_be_bytes`). -/
def toI32 (n : Nat) : Int :=
  if n % 4294967296 < 2147483648 then (n % 4294967296 : Int)
  else (n % 4294967296 : Int) - 4294967296

/-- Euclidean residue used to model Rust wrapping casts of an `Int` to `u8`. -/
def intMod256 (i : Int) : Nat := (i % 256).toNat

/-- `IppEncode::ipp_value_length_bytes` — the 2-byte value-length field. -/
def ipp_value_length_bytes : Nat := 2

/-! ## `src/encoder/src/spec/tag.rs` -/

/-- `DelimiterTag` (rfc8010 §3.5.1). -/
inductive DelimiterTag where
  | OperationAttributes
  | JobAttributes
  | EndOfAttributes
  | PrinterAttributes
  | UnsupportedAttributes
  deriving DecidableEq, Repr

/-- Discriminant values of `DelimiterTag` (`tag as u8`). -/
def DelimiterTag.toNat : DelimiterTag → Nat
  | .OperationAttributes => 0x01
  | .JobAttributes => 0x02
  | .EndOfAttributes => 0x03
  | .PrinterAttributes => 0x04
  | .UnsupportedAttributes => 0x05

/-- `DelimiterTag::from_repr`. -/
def DelimiterTag.fromRepr (n : Nat) : Option DelimiterTag :=
  match n with
  | 0x01 => some .OperationAttributes
  | 0x02 => some .JobAttributes
  | 0x03 => some .EndOfAttributes
  | 0x04 => some .PrinterAttributes
  | 0x05 => some .UnsupportedAttributes
  | _ => none

/-- `ValueTag` (rfc8010 §3.5.2). -/
inductive ValueTag where
  | Unsupported
  | Unknown
  | NoValue
  | Integer
  | Boolean
  | Enum
  | OctetStringUnspecified
  | DateTime
  | Resolution
  | RangeOfInteger
  | BegCollection
  | TextWithLanguage
  | NameWithLanguage
  | EndCollection
  | TextWithoutLanguage
  | NameWithoutLanguage
  | Keyword
  | Uri
  | UriScheme
  | Charset
  | NaturalLanguage
  | MimeMediaType
  | MemberAttrName
  deriving DecidableEq, Repr

/-- Discriminant values of `ValueTag` (`tag as u8`). -/
def ValueTag.toNat : ValueTag → Nat
  | .Unsupported => 0x10
  | .Unknown => 0x12
  | .NoValue => 0x13
  | .Integer => 0x21
  | .Boolean => 0x22
  | .Enum => 0x23
  | .OctetStringUnspecified => 0x30
  | .DateTime => 0x31
  | .Resolution => 0x32
  | .RangeOfInteger => 0x33
  | .BegCollection => 0x34
  | .TextWithLanguage => 0x35
  | .NameWithLanguage => 0x36
  | .EndCollection => 0x37
  | .TextWithoutLanguage => 0x41
  | .NameWithoutLanguage => 0x42
  | .Keyword => 0x44
  | .Uri => 0x45
  | .UriScheme => 0x46
  | .Charset => 0x47
  | .NaturalLanguage => 0x48
  | .MimeMediaType => 0x49
  | .MemberAttrName => 0x4a

/-- `ValueTag::from_repr`. -/
def ValueTag.fromRepr (n : Nat) : Option ValueTag :=
  match n with
  | 0x10 => some .Unsupported
  | 0x12 => some .Unknown
  | 0x13 => some .NoValue
  | 0x21 => some .Integer
  | 0x22 => some .Boolean
  | 0x23 => some .Enum
  | 0x30 => some .OctetStringUnspecified
  | 0x31 => some .DateTime
  | 0x32 => some .Resolution
  | 0x33 => some .RangeOfInteger
  | 0x34 => some .BegCollection
  | 0x35 => some .TextWithLanguage
  | 0x36 => some .NameWithLanguage
  | 0x37 => some .EndCollection
  | 0x41 => some .TextWithoutLanguage
  | 0x42 => some .NameWithoutLanguage
  | 0x44 => some .Keyword
  | 0x45 => some .Uri
  | 0x46 => some .UriScheme
  | 0x47 => some .Charset
  | 0x48 => some .NaturalLanguage
  | 0x49 => some .MimeMediaType
  | 0x4a => some .MemberAttrName
  | _ => none

/-! ## `src/encoder/src/encoder/primitives.rs` -/

/-- `<i32 as IppEncode>::to_ipp`: 2-byte length field (always 4) followed by
the 4 big-endian two's-complement bytes of the value. -/
def I32.to_ipp (v : Int) : List Nat :=
  u16be 4 ++ u32be ((v % 4294967296).toNat)

/-- `<i32 as IppEncode>::ipp_len` (trait default `ipp_bytes + 2`). -/
def I32.ipp_len : Nat := 4 + ipp_value_length_bytes

/-- `<i32 as IppEncode>::from_ipp`: reads the 4 value bytes after the length
field (the length field itself is never inspected). -/
def I32.from_ipp (b : List Nat) (offset : Nat) : Option (Nat × Int) := do
  let n ← readU32 b (offset + ipp_value_length_bytes)
  pure (I32.ipp_len, toI32 n)

/-- `<bool as IppEncode>::to_ipp`. -/
def RBool.to_ipp (v : Bool) : List Nat :=
  u16be 1 ++ [if v then 1 else 0]

/-- `<bool as IppEncode>::ipp_len` (trait default `1 + 2`). -/
def RBool.ipp_len : Nat := 1 + ipp_value_length_bytes

/-- `<bool as IppEncode>::from_ipp`: payload byte `0x00` is `false`, `0x01`
is `true`, anything else hits `unreachable!()` — a panic, modelled `none`. -/
def RBool.from_ipp (b : List Nat) (offset : Nat) : Option (Nat × Bool) := do
  let n ← readU8 b (offset + ipp_value_length_bytes)
  match n with
  | 0 => pure (RBool.ipp_len, false)
  | 1 => pure (RBool.ipp_len, true)
  | _ => none

/-- `<String as IppEncode>::to_ipp`: 2-byte big-endian byte length (cast
`as u16`, hence mod 65536) followed by the UTF-8 bytes. -/
def RStr.to_ipp (s : RString) : List Nat :=
  u16be s.length ++ s

/-- `<String as IppEncode>::ipp_len`. -/
def RStr.ipp_len (s : RString) : Nat := s.length + ipp_value_length_bytes

/-- `<String as IppEncode>::from_ipp`: reads the declared number of bytes
after the length field (`String::from_utf8(..).unwrap()` is the identity on
the byte-sequence model; a short buffer panics, modelled `none`). -/
def RStr.from_ipp (b : List Nat) (offset : Nat) : Option (Nat × RString) := do
  let len ← readU16 b offset
  let start := offset + ipp_value_length_bytes
  if start + len ≤ b.length then
    pure (len + ipp_value_length_bytes, (b.drop start).take len)
  else
    none

/-! ## `src/encoder/src/encoder/text_with_lang.rs` -/

/-- `TextWithLang`. -/
structure TextWithLang where
  lang : RString
  text : RString
  deriving DecidableEq, Repr

/-- `<TextWithLang as IppEncode>::to_ipp`: a combined 2-byte length field
(sum of the two nested encodings, each cast `as u16`) followed by the
length-prefixed language and text strings. -/
def TextWithLang.to_ipp (t : TextWithLang) : List Nat :=
  u16be ((RStr.to_ipp t.lang).length % 65536 + (RStr.to_ipp t.text).length % 65536)
    ++ RStr.to_ipp t.lang ++ RStr.to_ipp t.text

/-- `<TextWithLang as IppEncode>::ipp_len`. -/
def TextWithLang.ipp_len (t : TextWithLang) : Nat :=
  ipp_value_length_bytes + RStr.ipp_len t.lang + RStr.ipp_len t.text

/-- `<TextWithLang as IppEncode>::from_ipp`: skips the combined length field,
then decodes the nested language string and text string in sequence. -/
def TextWithLang.from_ipp (b : List Nat) (offset : Nat) : Option (Nat × TextWithLang) := do
  let lang_offset := offset + ipp_value_length_bytes
  let (lang_len, lang) ← RStr.from_ipp b lang_offset
  let (text_len, text) ← RStr.from_ipp b (lang_offset + lang_len)
  pure (text_len + lang_len + ipp_value_length_bytes, ⟨lang, text⟩)

/-! ## `src/encoder/src/encoder/datetime.rs`

`chrono::DateTime<Utc>` is modelled as the record of calendar fields that the
code reads (`year() .. second()`, microseconds); `Utc.ymd(..).and_hms_micro(..)`
panics on out-of-range fields, modelled by the validity check below. -/

/-- In-memory model of `chrono::DateTime<Utc>` (normalized calendar fields). -/
structure DT where
  year : Nat
  month : Nat
  day : Nat
  hour : Nat
  minute : Nat
  second : Nat
  micro : Nat
  deriving DecidableEq, Repr

/-- Gregorian leap-year test (as used by chrono's calendar). -/
def isLeapYear (y : Nat) : Bool := y % 4 = 0 && (y % 100 ≠ 0 || y % 400 = 0)

/-- Days in a month of the proleptic Gregorian calendar. -/
def daysInMonth (y m : Nat) : Nat :=
  match m with
  | 1 => 31 | 2 => if isLeapYear y then 29 else 28 | 3 => 31 | 4 => 30
  | 5 => 31 | 6 => 30 | 7 => 31 | 8 => 31
  | 9 => 30 | 10 => 31 | 11 => 30 | 12 => 31
  | _ => 0

/-- Arguments on which `Utc.ymd(..).and_hms_micro(..)` succeeds; outside this
range chrono panics (modelled `none` in `DT.from_ipp`). -/
def DT.valid (d : DT) : Bool :=
  1 ≤ d.month && d.month ≤ 12 && 1 ≤ d.day && d.day ≤ daysInMonth d.year d.month
    && d.hour < 24 && d.minute < 60 && d.second < 60 && d.micro < 1000000

/-- `<DateTime<Utc> as IppEncode>::ipp_len` — the trait default
`ipp_bytes() + ipp_value_length_bytes()` = 11 + 2 = 13. -/
def DT.ipp_len : Nat := 11 + ipp_value_length_bytes

/-- `<DateTime<Utc> as IppEncode>::from_ipp`.

Reads the direction byte and offset bytes, computes
`drift = (hour_from_utc * 60 - minutes_from_utc) as i8` (u8 arithmetic; the
wrapping release semantics is modelled — a debug build would panic on the
intermediate overflow, but no theorem below exercises an overflowing input),
negates it for direction `'-'`, and adds it to the minute byte in 8-bit
arithmetic (`(i8 + drift) as u8`). -/
def DT.from_ipp (b : List Nat) (offset : Nat) : Option (Nat × DT) := do
  let start := offset + ipp_value_length_bytes
  let direction ← readU8 b (start + 8)
  let hour_from_utc ← readU8 b (start + 9)
  let minutes_from_utc ← readU8 b (start + 10)
  let driftRaw : Int := toI8 ((hour_from_utc % 256 * 60 % 256 + 256 - minutes_from_utc % 256) % 256)
  let drift : Int := if direction = 45 then -driftRaw else driftRaw
  let year ← readU16 b start
  let month ← readU8 b (start + 2)
  let day ← readU8 b (start + 3)
  let hour ← readU8 b (start + 4)
  let wireMinute ← readU8 b (start + 5)
  let minutes := intMod256 (toI8 wireMinute + drift)
  let seconds ← readU8 b (start + 6)
  let deciseconds ← readU8 b (start + 7)
  let value : DT := ⟨year, month, day, hour, minutes, seconds, deciseconds * 100⟩
  if value.valid then pure (DT.ipp_len, value) else none

/-- `<DateTime<Utc> as IppEncode>::to_ipp`.

Two faithfully-kept quirks of the source: the written value-length field is
`self.ipp_len()` (= 13, counting the length field itself), and the concat
lists the `deciseconds` bytes **before** the `seconds` bytes. The timezone of
a `DateTime<Utc>` is UTC, so `local_minus_utc` is the constant 0. -/
def DT.to_ipp (d : DT) : List Nat :=
  let local_minus_utc : Int := 0
  let direction : Nat := if local_minus_utc < 0 then 45 else 43
  let hour_from_utc : Nat := intMod256 (local_minus_utc / 60)
  let minutes_from_utc : Nat := intMod256 (local_minus_utc % 60)
  let deciseconds : Nat := 0
  u16be DT.ipp_len ++ u16be d.year
    ++ [d.month % 256] ++ [d.day % 256] ++ [d.hour % 256] ++ [d.minute % 256]
    ++ [deciseconds] ++ [d.second % 256]
    ++ [direction] ++ [hour_from_utc] ++ [minutes_from_utc]

/-! ## `src/encoder/src/spec/attribute.rs` — the four keyword vocabularies -/

/-- `OperationAttribute`. -/
inductive OperationAttribute where
  | RequestedAttributes
  | PrinterUri
  | AttributesCharset
  | AttributesNaturalLanguage
  deriving DecidableEq, Repr

/-- strum `serialize` string of each `OperationAttribute`. -/
def OperationAttribute.toStr : OperationAttribute → RString
  | .RequestedAttributes => ascii "requested-attributes"
  | .PrinterUri => ascii "printer-uri"
  | .AttributesCharset => ascii "attributes-charset"
  | .AttributesNaturalLanguage => ascii "attributes-natural-language"

/-- All constructors of `OperationAttribute`. -/
def OperationAttribute.all : List OperationAttribute :=
  [.RequestedAttributes, .PrinterUri, .AttributesCharset, .AttributesNaturalLanguage]

/-- `OperationAttribute::from_str` (strum `EnumString`). -/
def OperationAttribute.fromStr (s : RString) : Option OperationAttribute :=
  OperationAttribute.all.find? (fun a => a.toStr == s)

/-- `PrinterAttribute`. -/
inductive PrinterAttribute where
  | PrinterUriSupported
  | UriSecuritySupported
  | UriAuthenticationSupported
  | PrinterName
  | PrinterLocation
  | PrinterInfo
  | PrinterMoreInfo
  | PrinterDriverInstaller
  | PrinterMakeAndModel
  | PrinterMoreInfoManufacturer
  | PrinterState
  | PrinterStateReasons
  | PrinterStateMessage
  | IppVersionsSupported
  | OperationsSupported
  | MultipleDocumentJobsSupported
  | CharsetConfigured
  | CharsetSupported
  | NaturalLanguageConfigured
  | GeneratedNaturalLanguageSupported
  | DocumentFormatDefault
  | DocumentFormatSupported
  | PrinterIsAcceptingJobs
  | QueuedJobCount
  | PrinterMessageFromOperator
  | ColorSupported
  | ReferenceUriSchemesSupported
  | PdlOverrideSupported
  | PrinterUpTime
  | PrinterCurrentTime
  | MultipleOperationTimeOut
  | CompressionSupported
  | JobKOctetsSupported
  | JobImpressionsSupported
  | JobMediaSheetsSupported
  | PagesPerMinute
  | PagesPerMinuteColor
  deriving DecidableEq, Repr

/-- strum `serialize` string of each `PrinterAttribute`. -/
def PrinterAttribute.toStr : PrinterAttribute → RString
  | .PrinterUriSupported => ascii "printer-uri-supported"
  | .UriSecuritySupported => ascii "uri-security-supported"
  | .UriAuthenticationSupported => ascii "uri-authentication-supported"
  | .PrinterName => ascii "printer-name"
  | .PrinterLocation => ascii "printer-location"
  | .PrinterInfo => ascii "printer-info"
  | .PrinterMoreInfo => ascii "printer-more-info"
  | .PrinterDriverInstaller => ascii "printer-driver-installer"
  | .PrinterMakeAndModel => ascii "printer-make-and-model"
  | .PrinterMoreInfoManufacturer => ascii "printer-more-info-manufacturer"
  | .PrinterState => ascii "printer-state"
  | .PrinterStateReasons => ascii "printer-state-reasons"
  | .PrinterStateMessage => ascii "printer-state-message"
  | .IppVersionsSupported => ascii "ipp-versions-supported"
  | .OperationsSupported => ascii "operations-supported"
  | .MultipleDocumentJobsSupported => ascii "multiple-document-jobs-supported"
  | .CharsetConfigured => ascii "charset-configured"
  | .CharsetSupported => ascii "charset-supported"
  | .NaturalLanguageConfigured => ascii "natural-language-configured"
  | .GeneratedNaturalLanguageSupported => ascii "generated-natural-language-supported"
  | .DocumentFormatDefault => ascii "document-format-default"
  | .DocumentFormatSupported => ascii "document-format-supported"
  | .PrinterIsAcceptingJobs => ascii "printer-is-accepting-jobs"
  | .QueuedJobCount => ascii "queued-job-count"
  | .PrinterMessageFromOperator => ascii "printer-message-from-operator"
  | .ColorSupported => ascii "color-supported"
  | .ReferenceUriSchemesSupported => ascii "reference-uri-schemes-supported"
  | .PdlOverrideSupported => ascii "pdl-override-supported"
  | .PrinterUpTime => ascii "printer-up-time"
  | .PrinterCurrentTime => ascii "printer-current-time"
  | .MultipleOperationTimeOut => ascii "multiple-operation-time-out"
  | .CompressionSupported => ascii "compression-supported"
  | .JobKOctetsSupported => ascii "job-k-octets-supported"
  | .JobImpressionsSupported => ascii "job-impressions-supported"
  | .JobMediaSheetsSupported => ascii "job-media-sheets-supported"
  | .PagesPerMinute => ascii "pages-per-minute"
  | .PagesPerMinuteColor => ascii "pages-per-minute-color"

/-- All constructors of `PrinterAttribute`, in declaration order. -/
def PrinterAttribute.all : List PrinterAttribute :=
  [.PrinterUriSupported, .UriSecuritySupported, .UriAuthenticationSupported,
   .PrinterName, .PrinterLocation, .PrinterInfo, .PrinterMoreInfo,
   .PrinterDriverInstaller, .PrinterMakeAndModel, .PrinterMoreInfoManufacturer,
   .PrinterState, .PrinterStateReasons, .PrinterStateMessage,
   .IppVersionsSupported, .OperationsSupported, .MultipleDocumentJobsSupported,
   .CharsetConfigured, .CharsetSupported, .NaturalLanguageConfigured,
   .GeneratedNaturalLanguageSupported, .DocumentFormatDefault,
   .DocumentFormatSupported, .PrinterIsAcceptingJobs, .QueuedJobCount,
   .PrinterMessageFromOperator, .ColorSupported, .ReferenceUriSchemesSupported,
   .PdlOverrideSupported, .PrinterUpTime, .PrinterCurrentTime,
   .MultipleOperationTimeOut, .CompressionSupported, .JobKOctetsSupported,
   .JobImpressionsSupported, .JobMediaSheetsSupported, .PagesPerMinute,
   .PagesPerMinuteColor]

/-- `PrinterAttribute::from_str` (strum `EnumString`). -/
def PrinterAttribute.fromStr (s : RString) : Option PrinterAttribute :=
  PrinterAttribute.all.find? (fun a => a.toStr == s)

/-- `JobTemplateAttribute`. -/
inductive JobTemplateAttribute where
  | JobPriority
  | JobHoldUntil
  | JobSheets
  | MultipleDocumentHandling
  | Copies
  | Finishings
  | PageRanges
  | Sides
  | NumberUp
  | OrientationRequested
  | Media
  | PrinterResolution
  | PrintQuality
  deriving DecidableEq, Repr

/-- strum `serialize` string of each `JobTemplateAttribute`. -/
def JobTemplateAttribute.toStr : JobTemplateAttribute → RString
  | .JobPriority => ascii "job-priority"
  | .JobHoldUntil => ascii "job-hold-until"
  | .JobSheets => ascii "job-sheets"
  | .MultipleDocumentHandling => ascii "multiple-document-handling"
  | .Copies => ascii "copies"
  | .Finishings => ascii "finishings"
  | .PageRanges => ascii "page-ranges"
  | .Sides => ascii "sides"
  | .NumberUp => ascii "number-up"
  | .OrientationRequested => ascii "orientation-requested"
  | .Media => ascii "media"
  | .PrinterResolution => ascii "printer-resolution"
  | .PrintQuality => ascii "print-quality"

/-- All constructors of `JobTemplateAttribute`. -/
def JobTemplateAttribute.all : List JobTemplateAttribute :=
  [.JobPriority, .JobHoldUntil, .JobSheets, .MultipleDocumentHandling,
   .Copies, .Finishings, .PageRanges, .Sides, .NumberUp,
   .OrientationRequested, .Media, .PrinterResolution, .PrintQuality]

/-- `JobTemplateAttribute::from_str` (strum `EnumString`). -/
def JobTemplateAttribute.fromStr (s : RString) : Option JobTemplateAttribute :=
  JobTemplateAttribute.all.find? (fun a => a.toStr == s)

/-- `JobAttribute`. -/
inductive JobAttribute where
  | JobUri
  | JobId
  | JobPrinterUri
  | JobMoreInfo
  | JobName
  | JobOriginatingUserName
  | JobState
  | JobStateReasons
  | JobStateMessage
  | JobDetailedStatusMessages
  | JobDocumentAccessErrors
  | NumberOfDocuments
  | OutputDeviceAssigned
  | TimeAtCreation
  | TimeAtProcessing
  | TimeAtCompleted
  | JobPrinterUpTime
  | DateTimeAtCreation
  | DateTimeAtProcessing
  | DateTimeAtCompleted
  | NumberOfInterveningJobs
  | JobMessageFromOperator
  | JobKOctets
  | JobImpressions
  | JobMediaSheets
  | JobKOctetsProcessed
  | JobImpressionsCompleted
  | JobMediaSheetsCompleted
  deriving DecidableEq, Repr

/-- strum `serialize` string of each `JobAttribute`. -/
def JobAttribute.toStr : JobAttribute → RString
  | .JobUri => ascii "job-uri"
  | .JobId => ascii "job-id"
  | .JobPrinterUri => ascii "job-printer-uri"
  | .JobMoreInfo => ascii "job-more-info"
  | .JobName => ascii "job-name"
  | .JobOriginatingUserName => ascii "job-originating-user-name"
  | .JobState => ascii "job-state"
  | .JobStateReasons => ascii "job-state-reasons"
  | .JobStateMessage => ascii "job-state-message"
  | .JobDetailedStatusMessages => ascii "job-detailed-status-messages"
  | .JobDocumentAccessErrors => ascii "job-document-access-errors"
  | .NumberOfDocuments => ascii "number-of-documents"
  | .OutputDeviceAssigned => ascii "output-device-assigned"
  | .TimeAtCreation => ascii "time-at-creation"
  | .TimeAtProcessing => ascii "time-at-processing"
  | .TimeAtCompleted => ascii "time-at-completed"
  | .JobPrinterUpTime => ascii "job-printer-up-time"
  | .DateTimeAtCreation => ascii "date-time-at-creation"
  | .DateTimeAtProcessing => ascii "date-time-at-processing"
  | .DateTimeAtCompleted => ascii "date-time-at-completed"
  | .NumberOfInterveningJobs => ascii "number-of-intervening-jobs"
  | .JobMessageFromOperator => ascii "job-message-from-operator"
  | .JobKOctets => ascii "job-k-octets"
  | .JobImpressions => ascii "job-impressions"
  | .JobMediaSheets => ascii "job-media-sheets"
  | .JobKOctetsProcessed => ascii "job-k-octets-processed"
  | .JobImpressionsCompleted => ascii "job-impressions-completed"
  | .JobMediaSheetsCompleted => ascii "job-media-sheets-completed"

/-- All constructors of `JobAttribute`. -/
def JobAttribute.all : List JobAttribute :=
  [.JobUri, .JobId, .JobPrinterUri, .JobMoreInfo, .JobName,
   .JobOriginatingUserName, .JobState, .JobStateReasons, .JobStateMessage,
   .JobDetailedStatusMessages, .JobDocumentAccessErrors, .NumberOfDocuments,
   .OutputDeviceAssigned, .TimeAtCreation, .TimeAtProcessing, .TimeAtCompleted,
   .JobPrinterUpTime, .DateTimeAtCreation, .DateTimeAtProcessing,
   .DateTimeAtCompleted, .NumberOfInterveningJobs, .JobMessageFromOperator,
   .JobKOctets, .JobImpressions, .JobMediaSheets, .JobKOctetsProcessed,
   .JobImpressionsCompleted, .JobMediaSheetsCompleted]

/-- `JobAttribute::from_str` (strum `EnumString`). -/
def JobAttribute.fromStr (s : RString) : Option JobAttribute :=
  JobAttribute.all.find? (fun a => a.toStr == s)

/-! ## `src/encoder/src/encoder/attribute_name.rs` -/

/-- `AttributeName`: four closed vocabularies plus the `Unsupported` fallback. -/
inductive AttributeName where
  | Operation (a : OperationAttribute)
  | Printer (a : PrinterAttribute)
  | JobTemplate (a : JobTemplateAttribute)
  | Job (a : JobAttribute)
  | Unsupported (s : RString)
  deriving DecidableEq, Repr

/-- `AttributeName::from_str`: tries the four vocabularies in order and falls
back to `Unsupported` (this conversion never fails). -/
def AttributeName.fromStr (s : RString) : AttributeName :=
  match OperationAttribute.fromStr s with
  | some n => .Operation n
  | none =>
    match PrinterAttribute.fromStr s with
    | some n => .Printer n
    | none =>
      match JobTemplateAttribute.fromStr s with
      | some n => .JobTemplate n
      | none =>
        match JobAttribute.fromStr s with
        | some n => .Job n
        | none => .Unsupported s

/-- `AttributeName`'s `Display` implementation. -/
def AttributeName.toStr : AttributeName → RString
  | .Operation a => a.toStr
  | .Printer a => a.toStr
  | .JobTemplate a => a.toStr
  | .Job a => a.toStr
  | .Unsupported s => s

/-- `AttributeName::is_empty`: only an empty `Unsupported` string is empty. -/
def AttributeName.is_empty : AttributeName → Bool
  | .Unsupported s => s.isEmpty
  | _ => false

/-- `<AttributeName as IppEncode>::from_ipp`: decode the wire string, then
resolve it (`from_str(..).unwrap()` cannot fail). -/
def AttributeName.from_ipp (b : List Nat) (offset : Nat) : Option (Nat × AttributeName) := do
  let (delta, raw) ← RStr.from_ipp b offset
  pure (delta, AttributeName.fromStr raw)

/-- `<AttributeName as IppEncode>::to_ipp` — encode the display string. -/
def AttributeName.to_ipp (n : AttributeName) : List Nat := RStr.to_ipp n.toStr

/-- `<AttributeName as IppEncode>::ipp_len`. -/
def AttributeName.ipp_len (n : AttributeName) : Nat := RStr.ipp_len n.toStr

/-! ## `src/encoder/src/encoder/attribute_value.rs` -/

/-- `AttributeValue`. -/
inductive AttributeValue where
  | TextWithoutLang (s : RString)
  | Number (n : Int)
  | Boolean (b : Bool)
  | TextWithLang (t : TextWithLang)
  | DateTime (d : DT)
  deriving DecidableEq, Repr

/-- `AttributeValue::from_ipp`: select the primitive decoder from the value
tag ({Integer, Enum} → number, Boolean → boolean, TextWithLanguage →
language-tagged text, DateTime → date-time, every other tag → string). -/
def AttributeValue.from_ipp (b : List Nat) (offset : Nat) (value_tag : ValueTag) :
    Option (Nat × AttributeValue) :=
  match value_tag with
  | .Integer | .Enum => do
      let (delta, raw) ← I32.from_ipp b offset
      pure (delta, AttributeValue.Number raw)
  | .Boolean => do
      let (delta, raw) ← RBool.from_ipp b offset
      pure (delta, AttributeValue.Boolean raw)
  | .TextWithLanguage => do
      let (delta, raw) ← TextWithLang.from_ipp b offset
      pure (delta, AttributeValue.TextWithLang raw)
  | .DateTime => do
      let (delta, raw) ← DT.from_ipp b offset
      pure (delta, AttributeValue.DateTime raw)
  | _ => do
      let (delta, raw) ← RStr.from_ipp b offset
      pure (delta, AttributeValue.TextWithoutLang raw)

/-- `AttributeValue::to_ipp`: dispatch on the value's own variant (the
attribute's stored tag is not consulted). -/
def AttributeValue.to_ipp : AttributeValue → List Nat
  | .Boolean v => RBool.to_ipp v
  | .Number v => I32.to_ipp v
  | .DateTime v => DT.to_ipp v
  | .TextWithLang v => v.to_ipp
  | .TextWithoutLang v => RStr.to_ipp v

/-- `AttributeValue::ipp_len`. -/
def AttributeValue.ipp_len : AttributeValue → Nat
  | .Boolean _ => RBool.ipp_len
  | .Number _ => I32.ipp_len
  | .DateTime _ => DT.ipp_len
  | .TextWithLang v => v.ipp_len
  | .TextWithoutLang v => RStr.ipp_len v

/-! ## `src/encoder/src/encoder/attribute.rs` -/

/-- `Attribute`. -/
structure Attribute where
  tag : ValueTag
  name : AttributeName
  values : List AttributeValue
  deriving DecidableEq, Repr

/-- `Attribute::decode_one`.

Result `(consumed, has_name, decoded)`; a delimiter-tag byte yields
`(0, false, none)` without consuming. The outer `Option` is the panic monad:
an out-of-range read or a failed `ValueTag::from_repr(..).unwrap()` is `none`. -/
def Attribute.decode_one (b : List Nat) (offset : Nat) :
    Option (Nat × Bool × Option Attribute) := do
  let raw_int ← readU8 b offset
  if (DelimiterTag.fromRepr raw_int).isSome then
    pure (0, false, none)
  else do
    let (d1, name) ← AttributeName.from_ipp b (offset + 1)
    let value_tag ← ValueTag.fromRepr raw_int
    let (d2, value) ← AttributeValue.from_ipp b (offset + 1 + d1) value_tag
    pure (1 + d1 + d2, !name.is_empty, some ⟨value_tag, name, [value]⟩)

/-- The `while let` loop inside `Attribute::from_ipp`, with fuel.

State: accumulated attribute, bytes consumed so far (`first_offset`), and the
last `decode_one` result (`next_offset`, `has_name`, `next_attribute_opt`). -/
def Attribute.from_ipp_loop (b : List Nat) (offset : Nat) :
    Nat → Attribute → Nat → Nat → Bool → Option Attribute → Option (Nat × Option Attribute)
  | 0, _, _, _, _, _ => none
  | _ + 1, first_attribute, first_offset, _, _, none =>
      pure (first_offset, some first_attribute)
  | fuel + 1, first_attribute, first_offset, next_offset, has_name, some next_attribute =>
      if has_name || (offset + first_offset + next_offset ≥ b.length) then
        pure (first_offset, some first_attribute)
      else do
        let first_attribute :=
          { first_attribute with values := first_attribute.values ++ next_attribute.values }
        let first_offset := first_offset + next_offset
        let (n, h, o) ← Attribute.decode_one b (offset + first_offset)
        Attribute.from_ipp_loop b offset fuel first_attribute first_offset n h o

/-- `Attribute::from_ipp` (the multi-value decode of §4.3).

Note it unconditionally calls `decode_one` again at `offset + first_offset`
whenever that position is `≤ bytes.len()`; when the first attribute ends
exactly at the end of the buffer this peek reads out of range and panics. -/
def Attribute.from_ipp (b : List Nat) (offset : Nat) : Option (Nat × Option Attribute) := do
  let (first_offset, _, first_attribute_opt) ← Attribute.decode_one b offset
  let next_offset := offset + first_offset
  match first_attribute_opt with
  | none => pure (0, none)
  | some first_attribute =>
      if next_offset > b.length then
        pure (0, none)
      else do
        let (n, h, o) ← Attribute.decode_one b next_offset
        Attribute.from_ipp_loop b offset (b.length + 1) first_attribute first_offset n h o

/-- `Attribute::to_ipp`: for value index 0 emit tag + full name + value, for
every later value emit tag + zero-length name (`String::from("").to_ipp()`)
+ value; an attribute with no values encodes to zero bytes. (The source's
`i == 0` test inside the loop becomes the head/tail split.) -/
def Attribute.to_ipp (a : Attribute) : List Nat :=
  match a.values with
  | [] => []
  | v :: rest =>
      ([a.tag.toNat] ++ a.name.to_ipp ++ v.to_ipp)
        ++ rest.flatMap (fun w => [a.tag.toNat] ++ RStr.to_ipp [] ++ w.to_ipp)

/-- `Attribute::ipp_len`: 1 tag byte per value, the name field once plus a
2-byte zero name-length for each later value, plus the values' lengths. -/
def Attribute.ipp_len (a : Attribute) : Nat :=
  if a.values.isEmpty then 0
  else
    let tag_len := a.values.length
    let name_len := RStr.ipp_len a.name.toStr + (a.values.length - 1) * 2
    let value_len := (a.values.map AttributeValue.ipp_len).sum
    tag_len + name_len + value_len

/-! ## `src/encoder/src/encoder/attribute_group.rs`

A `HashMap` is modelled as an association list; `insert` replaces an existing
binding in place (unique keys), `get` is the first lookup, `values()` is the
list of second components. -/

/-- `HashMap::insert`: replace the binding in place, or append a new one. -/
def insertAssoc {κ α : Type} [DecidableEq κ] (k : κ) (v : α) : List (κ × α) → List (κ × α)
  | [] => [(k, v)]
  | (k', v') :: rest => if k' = k then (k, v) :: rest else (k', v') :: insertAssoc k v rest

/-- `HashMap::get`. -/
def lookupAssoc {κ α : Type} [DecidableEq κ] (k : κ) : List (κ × α) → Option α
  | [] => none
  | (k', v) :: rest => if k' = k then some v else lookupAssoc k rest

/-- The `attributes` map of a group: `HashMap<AttributeName, Attribute>`. -/
abbrev AttrMap := List (AttributeName × Attribute)

/-- `AttributeGroup`. -/
structure AttributeGroup where
  tag : DelimiterTag
  attributes : AttrMap
  deriving DecidableEq, Repr

/-- The group table: `HashMap<DelimiterTag, AttributeGroup>`. -/
abbrev IppMap := List (DelimiterTag × AttributeGroup)

/-- The inner attribute-reading `loop` of the group decoder, with fuel.

State: current offset, last `Attribute::from_ipp` result (`delta`,
`attribute_opt`), accumulated per-group attribute map. -/
def read_attributes_loop (b : List Nat) :
    Nat → Nat → Nat → Option Attribute → AttrMap → Option (Nat × AttrMap)
  | 0, _, _, _, _ => none
  | fuel + 1, shifting, delta, attribute_opt, attributes =>
      if shifting > b.length then pure (shifting, attributes)
      else
        match attribute_opt with
        | some attr => do
            let attributes := insertAssoc attr.name attr attributes
            let shifting := shifting + delta
            let (d, o) ← Attribute.from_ipp b shifting
            read_attributes_loop b fuel shifting d o attributes
        | none => pure (shifting, attributes)

/-- The outer `while` of `<HashMap<DelimiterTag, AttributeGroup>>::from_ipp`,
with fuel. `read_tag` reads one byte (panicking — `none` — past the end) and
classifies it with `DelimiterTag::from_repr`. -/
def map_from_ipp_loop (b : List Nat) :
    Nat → Nat → Option DelimiterTag → IppMap → Option (Nat × IppMap)
  | 0, _, _, _ => none
  | fuel + 1, shifting, tag_opt, decoded =>
      if shifting < b.length then
        match tag_opt with
        | some tag =>
            if tag = .EndOfAttributes then pure (shifting, decoded)
            else do
              let (delta, attribute_opt) ← Attribute.from_ipp b shifting
              let (shifting, attributes) ←
                read_attributes_loop b (b.length + 1) shifting delta attribute_opt []
              let decoded := insertAssoc tag ⟨tag, attributes⟩ decoded
              let raw ← readU8 b shifting
              map_from_ipp_loop b fuel (shifting + 1) (DelimiterTag.fromRepr raw) decoded
        | none => pure (shifting, decoded)
      else pure (shifting, decoded)

/-- `<HashMap<DelimiterTag, AttributeGroup> as IppEncode>::from_ipp`. -/
def map_from_ipp (b : List Nat) (offset : Nat) : Option (Nat × IppMap) := do
  let raw ← readU8 b offset
  let (shifting, decoded) ←
    map_from_ipp_loop b (b.length + 1) (offset + 1) (DelimiterTag.fromRepr raw) []
  pure (shifting - offset, decoded)

/-- The bytes of one group inside the table encoder: the delimiter-tag byte
followed by every attribute of the group (in the map's value order). -/
def AttributeGroup.bytes (g : AttributeGroup) : List Nat :=
  [g.tag.toNat] ++ (g.attributes.map Prod.snd).flatMap Attribute.to_ipp

/-- The `groups` vector of the table encoder: push the operation-attributes,
unsupported-attributes, printer-attributes and job-attributes groups, in that
fixed order, whenever present. -/
def gather_groups (m : IppMap) : List AttributeGroup :=
  (match lookupAssoc DelimiterTag.OperationAttributes m with
   | some g => [g] | none => [])
  ++ (match lookupAssoc DelimiterTag.UnsupportedAttributes m with
      | some g => [g] | none => [])
  ++ (match lookupAssoc DelimiterTag.PrinterAttributes m with
      | some g => [g] | none => [])
  ++ (match lookupAssoc DelimiterTag.JobAttributes m with
      | some g => [g] | none => [])

/-- `<HashMap<DelimiterTag, AttributeGroup> as IppEncode>::to_ipp`: the
gathered groups' bytes followed by the end-of-attributes tag byte. -/
def map_to_ipp (m : IppMap) : List Nat :=
  (gather_groups m).flatMap AttributeGroup.bytes ++ [DelimiterTag.EndOfAttributes.toNat]

/-- `<HashMap<DelimiterTag, AttributeGroup> as IppEncode>::ipp_len`: one
delimiter byte plus the attribute lengths for **every** entry of the map
(regardless of its key), plus the end-of-attributes byte. -/
def map_ipp_len (m : IppMap) : Nat :=
  (m.map (fun kg => 1 + ((kg.2.attributes.map Prod.snd).map Attribute.ipp_len).sum)).sum + 1

/-! ## `src/encoder/src/encoder/ipp_version.rs` and `operation.rs` -/

/-- `IppVersion` (two `u8` fields). -/
structure IppVersion where
  major : Nat
  minor : Nat
  deriving DecidableEq, Repr

/-- `Operation` (`operation_id_or_status_code : u16`, `request_id : u32`). -/
structure Operation where
  version : IppVersion
  operation_id_or_status_code : Nat
  request_id : Nat
  attribute_groups : IppMap
  data : List Nat
  deriving DecidableEq, Repr

/-- `<Operation as IppEncode>::from_ipp`: 1-byte major, 1-byte minor, 2-byte
operation-id/status-code, 4-byte request-id, the group table, then all
remaining bytes verbatim as `data`. -/
def Operation.from_ipp (b : List Nat) (offset : Nat) : Option (Nat × Operation) := do
  let major ← readU8 b offset
  let minor ← readU8 b (offset + 1)
  let operation_id_or_status_code ← readU16 b (offset + 2)
  let request_id ← readU32 b (offset + 4)
  let (delta, attribute_groups) ← map_from_ipp b (offset + 8)
  let shifting := offset + 8 + delta
  let data := b.drop shifting
  pure (shifting - offset,
    ⟨⟨major, minor⟩, operation_id_or_status_code, request_id, attribute_groups, data⟩)

/-- `<Operation as IppEncode>::to_ipp`. -/
def Operation.to_ipp (o : Operation) : List Nat :=
  [o.version.major % 256] ++ [o.version.minor % 256]
    ++ u16be o.operation_id_or_status_code ++ u32be o.request_id
    ++ map_to_ipp o.attribute_groups ++ o.data

/-- `<Operation as IppEncode>::ipp_len`. -/
def Operation.ipp_len (o : Operation) : Nat :=
  1 + 1 + 2 + 4 + map_ipp_len o.attribute_groups + o.data.length

/-! ## `src/encoder/src/spec/operation.rs` -/

/-- `PrinterState` (rfc8011 §5.4.11). -/
inductive PrinterState where
  | Idle
  | Processing
  | Stopped
  deriving DecidableEq, Repr

/-- Discriminants of `PrinterState`. -/
def PrinterState.toNat : PrinterState → Nat
  | .Idle => 3
  | .Processing => 4
  | .Stopped => 5

/-- `OperationID` (rfc8011 §5.4.15). -/
inductive OperationID where
  | PrintJob
  | PrintUri
  | ValidateJob
  | CreateJob
  | SendDocument
  | SendUri
  | CancelJob
  | GetJobAttributes
  | GetJobs
  | GetPrinterAttributes
  | HoldJob
  | ReleaseJob
  | RestartJob
  | PausePrinter
  | ResumePrinter
  | PurgeJobs
  deriving DecidableEq, Repr

/-- Discriminants of `OperationID`. -/
def OperationID.toNat : OperationID → Nat
  | .PrintJob => 0x0002
  | .PrintUri => 0x0003
  | .ValidateJob => 0x0004
  | .CreateJob => 0x0005
  | .SendDocument => 0x0006
  | .SendUri => 0x0007
  | .CancelJob => 0x0008
  | .GetJobAttributes => 0x0009
  | .GetJobs => 0x000A
  | .GetPrinterAttributes => 0x000B
  | .HoldJob => 0x000C
  | .ReleaseJob => 0x000D
  | .RestartJob => 0x000E
  | .PausePrinter => 0x0010
  | .ResumePrinter => 0x0011
  | .PurgeJobs => 0x0012

/-- `OperationID::from_repr`. -/
def OperationID.fromRepr (n : Nat) : Option OperationID :=
  match n with
  | 0x0002 => some .PrintJob
  | 0x0003 => some .PrintUri
  | 0x0004 => some .ValidateJob
  | 0x0005 => some .CreateJob
  | 0x0006 => some .SendDocument
  | 0x0007 => some .SendUri
  | 0x0008 => some .CancelJob
  | 0x0009 => some .GetJobAttributes
  | 0x000A => some .GetJobs
  | 0x000B => some .GetPrinterAttributes
  | 0x000C => some .HoldJob
  | 0x000D => some .ReleaseJob
  | 0x000E => some .RestartJob
  | 0x0010 => some .PausePrinter
  | 0x0011 => some .ResumePrinter
  | 0x0012 => some .PurgeJobs
  | _ => none

/-- `Operation::operation_id`. -/
def Operation.operation_id (o : Operation) : Option OperationID :=
  OperationID.fromRepr o.operation_id_or_status_code

/-- The `StatusCode` discriminants used by the dispatch layer
(`spec/operation.rs`; only the three codes the handler writes are needed by
name, but the values are the enum's). -/
def StatusCode.SuccessfulOk : Nat := 0x0000

/-- `StatusCode::ServerErrorOperationNotSupported`. -/
def StatusCode.ServerErrorOperationNotSupported : Nat := 0x0501

/-- `StatusCode::ServerErrorVersionNotSupported`. -/
def StatusCode.ServerErrorVersionNotSupported : Nat := 0x0503

/-! ## `src/server/src/printer/mod.rs` — `IppPrinter`

`Utc::now()` and the uptime subtraction `now - started_at` are environment
inputs of the handler; they are threaded through as explicit parameters
(`now : DT`, `uptime_seconds : Int`). Only the length of the `jobs` vector
is ever read by the modelled paths. -/

/-- The printer state object (construction-time fields read by `handle`). -/
structure IppPrinter where
  uri : RString
  port : Nat
  name : RString
  state : PrinterState
  jobsLen : Nat
  deriving DecidableEq, Repr

/-- `IppPrinter::printer_uri` (operation attribute). -/
def IppPrinter.printer_uri (p : IppPrinter) : Attribute :=
  ⟨.Uri, .Operation .PrinterUri, [.TextWithoutLang p.uri]⟩

/-- `IppPrinter::attributes_charset`. -/
def IppPrinter.attributes_charset (_p : IppPrinter) : Attribute :=
  ⟨.Charset, .Operation .AttributesCharset, [.TextWithoutLang (ascii "utf-8")]⟩

/-- `IppPrinter::attributes_natural_language`. -/
def IppPrinter.attributes_natural_language (_p : IppPrinter) : Attribute :=
  ⟨.NaturalLanguage, .Operation .AttributesNaturalLanguage,
   [.TextWithoutLang (ascii "en-US")]⟩

/-- `IppPrinter::request_operation_attributes`: the echoed
operation-attributes group (printer-uri, attributes-charset,
attributes-natural-language). -/
def IppPrinter.request_operation_attributes (p : IppPrinter) : AttributeGroup :=
  ⟨.OperationAttributes,
   [((p.printer_uri).name, p.printer_uri),
    ((p.attributes_charset).name, p.attributes_charset),
    ((p.attributes_natural_language).name, p.attributes_natural_language)]⟩

/-- `IppPrinter::ipp_printer_versions_supported`. -/
def IppPrinter.ipp_printer_versions_supported (_p : IppPrinter) : Attribute :=
  ⟨.Keyword, .Printer .IppVersionsSupported, [.TextWithoutLang (ascii "1.1")]⟩

/-- `IppPrinter::printer_uri_supported`. -/
def IppPrinter.printer_uri_supported (p : IppPrinter) : Attribute :=
  ⟨.Uri, .Printer .PrinterUriSupported, [.TextWithoutLang p.uri]⟩

/-- `IppPrinter::uri_security_supported`
(`UriSecuritySupportedKeyword::None` serializes to `"none"`). -/
def IppPrinter.uri_security_supported (_p : IppPrinter) : Attribute :=
  ⟨.Keyword, .Printer .UriSecuritySupported, [.TextWithoutLang (ascii "none")]⟩

/-- `IppPrinter::uri_authentication_supported`
(`UriAuthenticationSupportedKeyword::None` serializes to `"none"`). -/
def IppPrinter.uri_authentication_supported (_p : IppPrinter) : Attribute :=
  ⟨.Keyword, .Printer .UriAuthenticationSupported, [.TextWithoutLang (ascii "none")]⟩

/-- `IppPrinter::printer_name`. -/
def IppPrinter.printer_name (p : IppPrinter) : Attribute :=
  ⟨.NameWithLanguage, .Printer .PrinterName, [.TextWithLang ⟨ascii "en", p.name⟩]⟩

/-- `IppPrinter::printer_state_reasons`
(`PrinterStateReasonKeyword::None` serializes to `"none"`). -/
def IppPrinter.printer_state_reasons (_p : IppPrinter) : Attribute :=
  ⟨.Keyword, .Printer .PrinterStateReasons, [.TextWithoutLang (ascii "none")]⟩

/-- `IppPrinter::printer_state` (`self.state as i32`). -/
def IppPrinter.printer_state (p : IppPrinter) : Attribute :=
  ⟨.Enum, .Printer .PrinterState, [.Number (p.state.toNat : Int)]⟩

/-- `IppPrinter::operation_supported`: the advertised supported-operations
enum values. -/
def IppPrinter.operation_supported (_p : IppPrinter) : Attribute :=
  ⟨.Enum, .Printer .OperationsSupported,
   [.Number (OperationID.PrintJob.toNat : Int),
    .Number (OperationID.ValidateJob.toNat : Int),
    .Number (OperationID.CancelJob.toNat : Int),
    .Number (OperationID.GetPrinterAttributes.toNat : Int),
    .Number (OperationID.GetJobAttributes.toNat : Int),
    .Number (OperationID.GetJobs.toNat : Int)]⟩

/-- `IppPrinter::charset_configured`. -/
def IppPrinter.charset_configured (_p : IppPrinter) : Attribute :=
  ⟨.Charset, .Printer .CharsetConfigured, [.TextWithoutLang (ascii "utf-8")]⟩

/-- `IppPrinter::charset_supported`. -/
def IppPrinter.charset_supported (_p : IppPrinter) : Attribute :=
  ⟨.Charset, .Printer .CharsetSupported, [.TextWithoutLang (ascii "utf-8")]⟩

/-- `IppPrinter::natural_language_configured`. -/
def IppPrinter.natural_language_configured (_p : IppPrinter) : Attribute :=
  ⟨.NaturalLanguage, .Printer .NaturalLanguageConfigured,
   [.TextWithoutLang (ascii "en-US")]⟩

/-- `IppPrinter::generated_natural_language_supported`. -/
def IppPrinter.generated_natural_language_supported (_p : IppPrinter) : Attribute :=
  ⟨.NaturalLanguage, .Printer .GeneratedNaturalLanguageSupported,
   [.TextWithoutLang (ascii "en-US")]⟩

/-- `IppPrinter::document_format_default`. -/
def IppPrinter.document_format_default (_p : IppPrinter) : Attribute :=
  ⟨.MimeMediaType, .Printer .DocumentFormatDefault,
   [.TextWithoutLang (ascii "application/postscript")]⟩

/-- `IppPrinter::document_format_supported`. -/
def IppPrinter.document_format_supported (_p : IppPrinter) : Attribute :=
  ⟨.MimeMediaType, .Printer .DocumentFormatSupported,
   [.TextWithoutLang (ascii "text/html"),
    .TextWithoutLang (ascii "text/plain"),
    .TextWithoutLang (ascii "application/vnd.hp-PCL"),
    .TextWithoutLang (ascii "application/octet-stream"),
    .TextWithoutLang (ascii "application/pdf"),
    .TextWithoutLang (ascii "application/postscript")]⟩

/-- `IppPrinter::printer_is_accepting_jobs`. -/
def IppPrinter.printer_is_accepting_jobs (_p : IppPrinter) : Attribute :=
  ⟨.Boolean, .Printer .PrinterIsAcceptingJobs, [.Boolean true]⟩

/-- `IppPrinter::queued_job_count` (`self.jobs.len() as i32`). -/
def IppPrinter.queued_job_count (p : IppPrinter) : Attribute :=
  ⟨.Integer, .Printer .QueuedJobCount, [.Number (toI32 (p.jobsLen % 4294967296))]⟩

/-- `IppPrinter::pdl_override_supported`
(`PdlOverrideSupportedKeyword::NotAttempted` serializes to `"not-attempted"`). -/
def IppPrinter.pdl_override_supported (_p : IppPrinter) : Attribute :=
  ⟨.Keyword, .Printer .PdlOverrideSupported, [.TextWithoutLang (ascii "not-attempted")]⟩

/-- `IppPrinter::printer_up_time` (`(Utc::now() - started_at).num_seconds()
as i32`; the duration in seconds is the explicit `uptime_seconds` input). -/
def IppPrinter.printer_up_time (_p : IppPrinter) (uptime_seconds : Int) : Attribute :=
  ⟨.Integer, .Printer .PrinterUpTime,
   [.Number (toI32 ((uptime_seconds % 4294967296).toNat))]⟩

/-- `IppPrinter::printer_current_time` (`Utc::now()` is the explicit `now`
input). -/
def IppPrinter.printer_current_time (_p : IppPrinter) (now : DT) : Attribute :=
  ⟨.DateTime, .Printer .PrinterCurrentTime, [.DateTime now]⟩

/-- `IppPrinter::compression_supported` (`"deflate"`, `"gzip"`). -/
def IppPrinter.compression_supported (_p : IppPrinter) : Attribute :=
  ⟨.Keyword, .Printer .CompressionSupported,
   [.TextWithoutLang (ascii "deflate"), .TextWithoutLang (ascii "gzip")]⟩

/-- `IppPrinter::request_printer_attribute`: resolve one requested name to a
provider attribute, or `none` when there is no provider (including names that
parse to no `PrinterAttribute` at all). -/
def IppPrinter.request_printer_attribute (p : IppPrinter) (now : DT)
    (uptime_seconds : Int) (attribute_name : RString) : Option Attribute :=
  match PrinterAttribute.fromStr attribute_name with
  | some printer_attr_name =>
      match printer_attr_name with
      | .IppVersionsSupported => some p.ipp_printer_versions_supported
      | .PrinterUriSupported => some p.printer_uri_supported
      | .UriSecuritySupported => some p.uri_security_supported
      | .UriAuthenticationSupported => some p.uri_authentication_supported
      | .PrinterName => some p.printer_name
      | .PrinterState => some p.printer_state
      | .PrinterStateReasons => some p.printer_state_reasons
      | .OperationsSupported => some p.operation_supported
      | .CharsetConfigured => some p.charset_configured
      | .CharsetSupported => some p.charset_supported
      | .NaturalLanguageConfigured => some p.natural_language_configured
      | .GeneratedNaturalLanguageSupported => some p.generated_natural_language_supported
      | .DocumentFormatDefault => some p.document_format_default
      | .DocumentFormatSupported => some p.document_format_supported
      | .PrinterIsAcceptingJobs => some p.printer_is_accepting_jobs
      | .QueuedJobCount => some p.queued_job_count
      | .PdlOverrideSupported => some p.pdl_override_supported
      | .PrinterUpTime => some (p.printer_up_time uptime_seconds)
      | .PrinterCurrentTime => some (p.printer_current_time now)
      | .CompressionSupported => some p.compression_supported
      | _ => none
  | none => none

/-- `IppPrinter::request_printer_attributes`: partition the request's
`requested-attributes` values (only `TextWithoutLang` values are considered)
into provided attributes and unsupported names. -/
def IppPrinter.request_printer_attributes (p : IppPrinter) (now : DT)
    (uptime_seconds : Int) (request : Operation) :
    Option (List Attribute × List RString) :=
  match lookupAssoc DelimiterTag.OperationAttributes request.attribute_groups with
  | some operation_attribute_group =>
      match lookupAssoc (AttributeName.Operation .RequestedAttributes)
          operation_attribute_group.attributes with
      | some requested =>
          some (requested.values.foldl
            (fun (acc : List Attribute × List RString) value =>
              match value with
              | .TextWithoutLang value_str =>
                  match p.request_printer_attribute now uptime_seconds value_str with
                  | some attr => (acc.1 ++ [attr], acc.2)
                  | none => (acc.1, acc.2 ++ [value_str])
              | _ => acc)
            ([], []))
      | none => none
  | none => none

/-- `IppPrinter::handle`, at the level of decoded `Operation` values.

The very first statement of the Rust body prints
`request.operation_id().unwrap()`, so a request whose operation-id matches no
`OperationID` symbol panics before any check runs (`none`). Filesystem and
`gs` side effects of the `PrintJob` arm do not touch the response and are
dropped. -/
def IppPrinter.handle_op (p : IppPrinter) (now : DT) (uptime_seconds : Int)
    (request : Operation) : Option Operation :=
  match request.operation_id with
  | none => none
  | some _ =>
      let response : Operation :=
        ⟨⟨1, 1⟩, StatusCode.SuccessfulOk, request.request_id, [], []⟩
      let operation_attribute_group := p.request_operation_attributes
      let response := { response with
        attribute_groups := insertAssoc operation_attribute_group.tag
          operation_attribute_group response.attribute_groups }
      if request.version.major ≠ 1 then
        some { response with
          operation_id_or_status_code := StatusCode.ServerErrorVersionNotSupported }
      else if !((p.operation_supported).values.contains
          (.Number (request.operation_id_or_status_code : Int))) then
        some { response with
          operation_id_or_status_code := StatusCode.ServerErrorOperationNotSupported }
      else
        match p.request_printer_attributes now uptime_seconds request with
        | some (supported, unsupported) =>
            let unsupported_group : AttributeGroup :=
              ⟨.UnsupportedAttributes,
               unsupported.foldl
                 (fun m value =>
                   let attr : Attribute :=
                     ⟨.Unsupported, .Unsupported value,
                      [.TextWithoutLang (ascii "unsupported")]⟩
                   insertAssoc attr.name attr m)
                 []⟩
            let response := { response with
              attribute_groups := insertAssoc unsupported_group.tag
                unsupported_group response.attribute_groups }
            let printer_attribute_group : AttributeGroup :=
              ⟨.PrinterAttributes,
               supported.foldl (fun m attr => insertAssoc attr.name attr m) []⟩
            some { response with
              attribute_groups := insertAssoc printer_attribute_group.tag
                printer_attribute_group response.attribute_groups }
        | none => some response

/-! ## Length lemmas (shared infrastructure for the claims below) -/

/-- Weight of an optional group under a length function (0 when absent). -/
def optGroupNat (f : AttributeGroup → Nat) : Option AttributeGroup → Nat
  | some g => f g
  | none => 0

/-- Bytes of an optional group (empty when absent). -/
def optGroupBytes : Option AttributeGroup → List Nat
  | some g => AttributeGroup.bytes g
  | none => []

theorem i32_to_ipp_length (v : Int) : (I32.to_ipp v).length = I32.ipp_len := by
  simp [I32.to_ipp, I32.ipp_len, u16be, u32be, ipp_value_length_bytes]

theorem rbool_to_ipp_length (v : Bool) : (RBool.to_ipp v).length = RBool.ipp_len := by
  simp [RBool.to_ipp, RBool.ipp_len, u16be, ipp_value_length_bytes]

theorem rstr_to_ipp_length (s : RString) : (RStr.to_ipp s).length = RStr.ipp_len s := by
  simp [RStr.to_ipp, RStr.ipp_len, u16be, ipp_value_length_bytes]

theorem twl_to_ipp_length (t : TextWithLang) :
    (TextWithLang.to_ipp t).length = t.ipp_len := by
  simp [TextWithLang.to_ipp, TextWithLang.ipp_len, RStr.to_ipp, RStr.ipp_len, u16be,
    ipp_value_length_bytes]
  omega

theorem dt_to_ipp_length (d : DT) : (DT.to_ipp d).length = DT.ipp_len := by
  simp [DT.to_ipp, DT.ipp_len, u16be, intMod256, ipp_value_length_bytes]

theorem value_to_ipp_length (v : AttributeValue) :
    (AttributeValue.to_ipp v).length = v.ipp_len := by
  cases v <;>
    simp [AttributeValue.to_ipp, AttributeValue.ipp_len, i32_to_ipp_length,
      rbool_to_ipp_length, rstr_to_ipp_length, twl_to_ipp_length, dt_to_ipp_length]

theorem name_to_ipp_length (n : AttributeName) :
    (AttributeName.to_ipp n).length = n.ipp_len := by
  simp [AttributeName.to_ipp, AttributeName.ipp_len, rstr_to_ipp_length]

theorem length_flatMap_sum {α : Type} (f : α → List Nat) (l : List α) :
    (l.flatMap f).length = (l.map (fun x => (f x).length)).sum := by
  induction l with
  | nil => rfl
  | cons x rest ih => simp only [List.flatMap_cons, List.length_append, ih,
      List.map_cons, List.sum_cons]

theorem attr_tail_length (t : ValueTag) (l : List AttributeValue) :
    (l.flatMap (fun w => [t.toNat] ++ RStr.to_ipp [] ++ w.to_ipp)).length
      = 3 * l.length + (l.map AttributeValue.ipp_len).sum := by
  induction l with
  | nil => simp
  | cons w ws ih =>
      rw [List.flatMap_cons, List.length_append, ih]
      have hv := value_to_ipp_length w
      simp only [List.length_append, List.length_cons, List.length_nil, List.map_cons,
        List.sum_cons, RStr.to_ipp, u16be, List.length_cons]
      omega

theorem attr_to_ipp_length (a : Attribute) :
    (Attribute.to_ipp a).length = a.ipp_len := by
  rcases a with ⟨tag, name, values⟩
  cases values with
  | nil => simp [Attribute.to_ipp, Attribute.ipp_len]
  | cons v vs =>
      show (([tag.toNat] ++ name.to_ipp ++ v.to_ipp)
        ++ vs.flatMap (fun w => [tag.toNat] ++ RStr.to_ipp [] ++ w.to_ipp)).length = _
      rw [List.length_append, attr_tail_length]
      have hn := name_to_ipp_length name
      have hv := value_to_ipp_length v
      simp only [AttributeName.ipp_len] at hn
      simp only [List.length_append, List.length_cons, List.length_nil]
      simp only [Attribute.ipp_len, List.isEmpty_cons, Bool.false_eq_true, if_false,
        List.length_cons, List.map_cons, List.sum_cons]
      omega

theorem group_bytes_length (g : AttributeGroup) :
    (AttributeGroup.bytes g).length
      = 1 + ((g.attributes.map Prod.snd).map Attribute.ipp_len).sum := by
  simp only [AttributeGroup.bytes, List.length_append, List.length_cons, List.length_nil,
    length_flatMap_sum, attr_to_ipp_length]

theorem lookupAssoc_eq_none {κ α : Type} [DecidableEq κ] (k : κ) (l : List (κ × α))
    (h : k ∉ l.map Prod.fst) : lookupAssoc k l = none := by
  induction l with
  | nil => rfl
  | cons kv rest ih =>
      simp only [List.map_cons, List.mem_cons] at h
      push_neg at h
      simp [lookupAssoc, Ne.symm h.1, ih h.2]

theorem four_lookup_sum (f : AttributeGroup → Nat) (m : IppMap)
    (hnd : (m.map Prod.fst).Nodup)
    (hend : ∀ kg ∈ m, kg.1 ≠ DelimiterTag.EndOfAttributes) :
    optGroupNat f (lookupAssoc DelimiterTag.OperationAttributes m)
      + optGroupNat f (lookupAssoc DelimiterTag.UnsupportedAttributes m)
      + optGroupNat f (lookupAssoc DelimiterTag.PrinterAttributes m)
      + optGroupNat f (lookupAssoc DelimiterTag.JobAttributes m)
      = (m.map (fun kg => f kg.2)).sum := by
  induction m with
  | nil => simp [lookupAssoc, optGroupNat]
  | cons kg rest ih =>
      obtain ⟨k, g⟩ := kg
      simp only [List.map_cons, List.nodup_cons] at hnd
      have hknone : lookupAssoc k rest = none := lookupAssoc_eq_none k rest hnd.1
      have hkend : k ≠ DelimiterTag.EndOfAttributes := hend (k, g) (List.mem_cons_self _ _)
      have hrest := ih hnd.2 (fun kg hkg => hend kg (List.mem_cons_of_mem _ hkg))
      have eself : ∀ k' : DelimiterTag, lookupAssoc k' ((k, g) :: rest)
          = if k = k' then some g else lookupAssoc k' rest := fun _ => rfl
      cases k with
      | EndOfAttributes => exact absurd rfl hkend
      | OperationAttributes =>
          rw [hknone] at hrest
          rw [eself, eself, eself, eself, if_pos rfl,
            if_neg (by decide), if_neg (by decide), if_neg (by decide)]
          simp only [List.map_cons, List.sum_cons, optGroupNat] at hrest ⊢
          omega
      | UnsupportedAttributes =>
          rw [hknone] at hrest
          rw [eself, eself, eself, eself, if_pos rfl,
            if_neg (by decide), if_neg (by decide), if_neg (by decide)]
          simp only [List.map_cons, List.sum_cons, optGroupNat] at hrest ⊢
          omega
      | PrinterAttributes =>
          rw [hknone] at hrest
          rw [eself, eself, eself, eself, if_pos rfl,
            if_neg (by decide), if_neg (by decide), if_neg (by decide)]
          simp only [List.map_cons, List.sum_cons, optGroupNat] at hrest ⊢
          omega
      | JobAttributes =>
          rw [hknone] at hrest
          rw [eself, eself, eself, eself, if_pos rfl,
            if_neg (by decide), if_neg (by decide), if_neg (by decide)]
          simp only [List.map_cons, List.sum_cons, optGroupNat] at hrest ⊢
          omega

theorem gather_map_sum (f : AttributeGroup → Nat) (m : IppMap) :
    ((gather_groups m).map f).sum
      = optGroupNat f (lookupAssoc DelimiterTag.OperationAttributes m)
        + optGroupNat f (lookupAssoc DelimiterTag.UnsupportedAttributes m)
        + optGroupNat f (lookupAssoc DelimiterTag.PrinterAttributes m)
        + optGroupNat f (lookupAssoc DelimiterTag.JobAttributes m) := by
  cases h1 : lookupAssoc DelimiterTag.OperationAttributes m <;>
  cases h2 : lookupAssoc DelimiterTag.UnsupportedAttributes m <;>
  cases h3 : lookupAssoc DelimiterTag.PrinterAttributes m <;>
  cases h4 : lookupAssoc DelimiterTag.JobAttributes m <;>
    simp [gather_groups, h1, h2, h3, h4, optGroupNat] <;> omega

theorem map_to_ipp_length (m : IppMap) (hnd : (m.map Prod.fst).Nodup)
    (hend : ∀ kg ∈ m, kg.1 ≠ DelimiterTag.EndOfAttributes) :
    (map_to_ipp m).length = map_ipp_len m := by
  have h1 := gather_map_sum (fun g => (AttributeGroup.bytes g).length) m
  have h2 := four_lookup_sum (fun g => (AttributeGroup.bytes g).length) m hnd hend
  have h3 : (map_to_ipp m).length
      = ((gather_groups m).map (fun g => (AttributeGroup.bytes g).length)).sum + 1 := by
    simp [map_to_ipp, length_flatMap_sum]
    rfl
  rw [h3, h1, h2, map_ipp_len]
  simp only [group_bytes_length]

theorem operation_to_ipp_length (o : Operation)
    (hnd : (o.attribute_groups.map Prod.fst).Nodup)
    (hend : ∀ kg ∈ o.attribute_groups, kg.1 ≠ DelimiterTag.EndOfAttributes) :
    (Operation.to_ipp o).length = o.ipp_len := by
  simp [Operation.to_ipp, Operation.ipp_len, u16be, u32be,
    map_to_ipp_length o.attribute_groups hnd hend]
  omega

/-! ## Concrete inputs used by the claim theorems -/

/-- Sample date-time 2022-05-10 03:24:36.0 UTC. -/
def dtA : DT := ⟨2022, 5, 10, 3, 24, 36, 0⟩

/-- A date-time attribute (`date-time-at-creation`) carrying `dtA`. -/
def attrC1 : Attribute := ⟨.DateTime, .Job .DateTimeAtCreation, [.DateTime dtA]⟩

/-- An operation whose job-attributes group holds `attrC1`. -/
def opC1 : Operation :=
  ⟨⟨1, 1⟩, 2, 1, [(.JobAttributes, ⟨.JobAttributes, [(attrC1.name, attrC1)]⟩)], []⟩

/-- What decoding the encoding of `opC1` actually produces: the date-time
comes back with `second = 0` and `micro = 3600` (decisecond 36). -/
def opC1_decoded : Operation :=
  ⟨⟨1, 1⟩, 2, 1,
   [(.JobAttributes, ⟨.JobAttributes,
     [(attrC1.name,
       ⟨.DateTime, .Job .DateTimeAtCreation, [.DateTime ⟨2022, 5, 10, 3, 24, 0, 3600⟩]⟩)]⟩)],
   []⟩

/-- An 11-byte date-time payload (after its length field): local time
2022-05-10 10:10:00.0 at offset +01:30 — the UTC instant is 08:40:00. -/
def bufC4 : List Nat := [0, 13, 7, 230, 5, 10, 10, 10, 0, 0, 43, 1, 30]

/-! ## Claims -/

/-- Claim C1 — `code_bug`. The round-trip property fails on the code: the
date-time encoder emits the deciseconds byte *before* the seconds byte
(`datetime.rs`, concat order), while the decoder reads seconds at payload
offset 6 and deciseconds at offset 7. Decoding the encoding of `opC1`
(03:24:36.0) therefore yields 03:24:00.3600µs — the decisecond field after
the round trip equals the original seconds, not 0 as the claim states. -/
theorem claim_C1_roundtrip_swaps_seconds :
    Operation.from_ipp (Operation.to_ipp opC1) 0 = some (47, opC1_decoded)
      ∧ opC1_decoded ≠ opC1 := by decide

/-- Claim C2 — `code_bug`. For a date-time the emitted 2-byte value-length
field is `ipp_len() = 13` (payload **plus** the 2-byte length field itself),
although the payload that follows is 11 bytes; the claim (and every other
primitive implementation) requires the field to exclude itself (11). -/
theorem claim_C2_datetime_length_field :
    readU16 (DT.to_ipp dtA) 0 = some 13
      ∧ ((DT.to_ipp dtA).drop 2).length = 11
      ∧ (13 : Nat) ≠ 11 := by decide

/-- Claim C3 — `code_bug`. The encoded date-time payload of `dtA`
(03:24:36.0) carries the always-zero deciseconds byte at payload offset 6 and
the seconds (36) at offset 7 — the reverse of the claimed wire order
`... second, decisecond ...`; payload byte 7 is 36 ≠ 0. -/
theorem claim_C3_decisecond_position :
    (DT.to_ipp dtA).drop 2 = [7, 230, 5, 10, 3, 24, 0, 36, 43, 0, 0]
      ∧ ((DT.to_ipp dtA).drop 2)[7]? = some 36
      ∧ ((DT.to_ipp dtA).drop 2)[6]? = some 0 := by decide

/-- Claim C4 — `code_bug`. The decoder's drift is
`(hour_from_utc * 60 - minutes_from_utc) as i8` — a **minus** — applied to
the minute byte only. For the payload `bufC4` (local 10:10:00 at +01:30) it
adds 60 − 30 = 30 minutes, decoding 10:40:00; the claimed adjustment by the
signed total offset `offset_hours·60 + offset_minutes = 90` would give the
UTC instant 08:40:00. -/
theorem claim_C4_offset_arithmetic :
    DT.from_ipp bufC4 0 = some (13, ⟨2022, 5, 10, 10, 40, 0, 0⟩)
      ∧ (⟨2022, 5, 10, 10, 40, 0, 0⟩ : DT) ≠ ⟨2022, 5, 10, 8, 40, 0, 0⟩ := by decide

/-- Claim C5 — `code_bug`. Payload byte 0x00 decodes to `false` and 0x01 to
`true`, but a payload byte outside {0, 1} hits `unreachable!()` — a panic
(modelled `none`); the codec has no typed error value at all, so the
invalid-encoding condition is not "surfaced as a typed error result" as the
claim requires. -/
theorem claim_C5_bool_decode :
    RBool.from_ipp [0, 1, 0] 0 = some (3, false)
      ∧ RBool.from_ipp [0, 1, 1] 0 = some (3, true)
      ∧ RBool.from_ipp [0, 1, 2] 0 = none := by decide

/-- Claim C6 — `confirmed`. The table encoder emits the present groups in the
fixed canonical order operation-attributes, unsupported-attributes,
printer-attributes, job-attributes (absent tags skipped), depends on the
table only through lookups (hence not on its iteration/insertion order), and
always appends exactly one end-of-attributes byte — `[3]` alone for an empty
table. -/
theorem claim_C6_canonical_group_order :
    (∀ m : IppMap, map_to_ipp m
        = optGroupBytes (lookupAssoc DelimiterTag.OperationAttributes m)
          ++ optGroupBytes (lookupAssoc DelimiterTag.UnsupportedAttributes m)
          ++ optGroupBytes (lookupAssoc DelimiterTag.PrinterAttributes m)
          ++ optGroupBytes (lookupAssoc DelimiterTag.JobAttributes m)
          ++ [DelimiterTag.EndOfAttributes.toNat])
      ∧ (∀ m₁ m₂ : IppMap,
          (∀ t, lookupAssoc t m₁ = lookupAssoc t m₂) → map_to_ipp m₁ = map_to_ipp m₂)
      ∧ map_to_ipp [] = [DelimiterTag.EndOfAttributes.toNat] := by
  refine ⟨fun m => ?_, fun m₁ m₂ h => ?_, rfl⟩
  · cases h1 : lookupAssoc DelimiterTag.OperationAttributes m <;>
    cases h2 : lookupAssoc DelimiterTag.UnsupportedAttributes m <;>
    cases h3 : lookupAssoc DelimiterTag.PrinterAttributes m <;>
    cases h4 : lookupAssoc DelimiterTag.JobAttributes m <;>
      simp [map_to_ipp, gather_groups, h1, h2, h3, h4, optGroupBytes]
  · simp only [map_to_ipp, gather_groups, h]

/-- A one-attribute operation-attributes group (C6 witness data). -/
def gOpW : AttributeGroup :=
  ⟨.OperationAttributes,
   [(.Operation .PrinterUri, ⟨.Uri, .Operation .PrinterUri, [.TextWithoutLang (ascii "u")]⟩)]⟩

/-- A one-attribute printer-attributes group (C6 witness data). -/
def gPrW : AttributeGroup :=
  ⟨.PrinterAttributes,
   [(.Printer .PrinterName,
     ⟨.NameWithLanguage, .Printer .PrinterName, [.TextWithLang ⟨ascii "en", ascii "p"⟩]⟩)]⟩

/-- The two C6 witness tables, inserted in opposite orders. -/
def mapC6a : IppMap := [(.PrinterAttributes, gPrW), (.OperationAttributes, gOpW)]

/-- See `mapC6a`. -/
def mapC6b : IppMap := [(.OperationAttributes, gOpW), (.PrinterAttributes, gPrW)]

/-- Witness for C6: two tables with the same lookups but opposite entry order
encode to the same bytes. -/
theorem claim_C6_witness : map_to_ipp mapC6a = map_to_ipp mapC6b :=
  claim_C6_canonical_group_order.2.1 mapC6a mapC6b (by intro t; cases t <;> rfl)

/-- A group table keyed by `EndOfAttributes` — constructible, skipped by the
encoder but counted by `ipp_len` (C7 counterexample data). -/
def mapC7cex : IppMap := [(.EndOfAttributes, ⟨.EndOfAttributes, []⟩)]

/-- Counterexample for C7 as stated: for a table containing an
`EndOfAttributes`-keyed entry, `to_ipp` emits only the end byte (length 1)
while `ipp_len` counts the entry's delimiter byte too (2). -/
theorem claim_C7_counterexample :
    (map_to_ipp mapC7cex).length = 1 ∧ map_ipp_len mapC7cex = 2
      ∧ (map_to_ipp mapC7cex).length ≠ map_ipp_len mapC7cex := by decide

/-- Claim C7 (amended) — `encode(x).length = ipp_len(x)` for every primitive,
`AttributeValue`, `Attribute` (with `ipp_len = 0` for an empty value list),
and — provided the table has unique keys (as a `HashMap` does) and no
`EndOfAttributes`-keyed entry — for the group table and `Operation`. -/
theorem claim_C7_encode_length_eq_ipp_len :
    (∀ v : Int, (I32.to_ipp v).length = I32.ipp_len)
      ∧ (∀ v : Bool, (RBool.to_ipp v).length = RBool.ipp_len)
      ∧ (∀ s : RString, (RStr.to_ipp s).length = RStr.ipp_len s)
      ∧ (∀ t : TextWithLang, (TextWithLang.to_ipp t).length = t.ipp_len)
      ∧ (∀ d : DT, (DT.to_ipp d).length = DT.ipp_len)
      ∧ (∀ v : AttributeValue, (AttributeValue.to_ipp v).length = v.ipp_len)
      ∧ (∀ a : Attribute,
          (Attribute.to_ipp a).length = a.ipp_len ∧ (a.values = [] → a.ipp_len = 0))
      ∧ (∀ m : IppMap, (m.map Prod.fst).Nodup →
          (∀ kg ∈ m, kg.1 ≠ DelimiterTag.EndOfAttributes) →
          (map_to_ipp m).length = map_ipp_len m)
      ∧ (∀ o : Operation, (o.attribute_groups.map Prod.fst).Nodup →
          (∀ kg ∈ o.attribute_groups, kg.1 ≠ DelimiterTag.EndOfAttributes) →
          (Operation.to_ipp o).length = o.ipp_len) :=
  ⟨i32_to_ipp_length, rbool_to_ipp_length, rstr_to_ipp_length, twl_to_ipp_length,
   dt_to_ipp_length, value_to_ipp_length,
   fun a => ⟨attr_to_ipp_length a, fun h => by simp [Attribute.ipp_len, h]⟩,
   map_to_ipp_length, operation_to_ipp_length⟩

/-- An empty-valued attribute (C7 witness data). -/
def attrC7w : Attribute := ⟨.Integer, .JobTemplate .Copies, []⟩

/-- A well-formed one-group table (C7 witness data). -/
def mapC7w : IppMap :=
  [(.OperationAttributes,
    ⟨.OperationAttributes,
     [(.Operation .AttributesCharset,
       ⟨.Charset, .Operation .AttributesCharset, [.TextWithoutLang (ascii "utf-8")]⟩)]⟩)]

/-- A well-formed operation over `mapC7w` with trailing data (C7 witness
data). -/
def opC7w : Operation := ⟨⟨1, 1⟩, 0, 5, mapC7w, [9, 9]⟩

/-- Witness for C7: the amended theorem applied at concrete inputs, with the
uniqueness / no-end-key hypotheses discharged by computation. -/
theorem claim_C7_witness :
    Attribute.ipp_len attrC7w = 0
      ∧ (map_to_ipp mapC7w).length = map_ipp_len mapC7w
      ∧ (Operation.to_ipp opC7w).length = Operation.ipp_len opC7w :=
  ⟨(claim_C7_encode_length_eq_ipp_len.2.2.2.2.2.2.1 attrC7w).2 rfl,
   claim_C7_encode_length_eq_ipp_len.2.2.2.2.2.2.2.1 mapC7w (by decide) (by decide),
   claim_C7_encode_length_eq_ipp_len.2.2.2.2.2.2.2.2 opC7w (by decide) (by decide)⟩

/-- The printer used by the dispatch-layer claims. -/
def p0 : IppPrinter := ⟨ascii "ipp://localhost:6363/", 6363, ascii "lean-printer", .Idle, 0⟩

/-- The `Utc::now()` input used by the dispatch-layer claims. -/
def now0 : DT := ⟨2022, 5, 10, 3, 24, 36, 0⟩

/-- A decodable request with version major 2 whose operation-id (1) matches
no `OperationID` symbol (C8 counterexample data). -/
def reqC8cex : Operation := ⟨⟨2, 1⟩, 1, 7, [], []⟩

/-- Counterexample for C8 as stated: this decodable major-2 request produces
no response at all — `handle` panics on `request.operation_id().unwrap()` in
its debug print before the version check runs, so the claimed 0x0503 response
is never built. -/
theorem claim_C8_counterexample :
    IppPrinter.handle_op p0 now0 100 reqC8cex = none := by decide

/-- Claim C8 (amended) — for every decodable request whose operation-id
matches a known `OperationID` symbol (otherwise `handle` panics) and whose
version major ≠ 1, the response carries the version-not-supported status
0x0503 and exactly the echoed operation-attributes group. -/
theorem claim_C8_version_check (p : IppPrinter) (now : DT) (up : Int) (req : Operation)
    (hop : (OperationID.fromRepr req.operation_id_or_status_code).isSome)
    (hver : req.version.major ≠ 1) :
    IppPrinter.handle_op p now up req
      = some ⟨⟨1, 1⟩, StatusCode.ServerErrorVersionNotSupported, req.request_id,
              [(DelimiterTag.OperationAttributes, p.request_operation_attributes)], []⟩ := by
  obtain ⟨o, ho⟩ : ∃ o, req.operation_id = some o := by
    cases hh : req.operation_id with
    | none =>
        rw [Operation.operation_id] at hh
        rw [hh] at hop
        simp at hop
    | some o => exact ⟨o, rfl⟩
  unfold IppPrinter.handle_op
  rw [ho]
  simp [hver, insertAssoc, IppPrinter.request_operation_attributes]

/-- A decodable request with version major 2 and the known operation-id
PrintJob (C8 witness data). -/
def reqC8w : Operation := ⟨⟨2, 1⟩, 2, 8, [], []⟩

/-- Witness for C8: the amended theorem applied at `reqC8w`. -/
theorem claim_C8_witness :
    IppPrinter.handle_op p0 now0 100 reqC8w
      = some ⟨⟨1, 1⟩, StatusCode.ServerErrorVersionNotSupported, 8,
              [(DelimiterTag.OperationAttributes, p0.request_operation_attributes)], []⟩ :=
  claim_C8_version_check p0 now0 100 reqC8w (by decide) (by decide)

/-- A supported-version request whose operation-id (0) matches no
`OperationID` symbol (C9 failing input). -/
def reqC9a : Operation := ⟨⟨1, 1⟩, 0, 9, [], []⟩

/-- A supported-version request with the known but unadvertised operation-id
PausePrinter = 0x10 (C9 data). -/
def reqC9b : Operation := ⟨⟨1, 1⟩, 0x10, 10, [], []⟩

/-- Claim C9 — `code_bug`. A known-but-unadvertised operation-id
(PausePrinter) does get the claimed operation-not-supported response 0x0501,
but an operation-id matching no `OperationID` symbol makes `handle` panic on
`request.operation_id().unwrap()` (modelled `none`) instead of being handled
at the raw-integer level as the claim requires. -/
theorem claim_C9_unsupported_operation :
    IppPrinter.handle_op p0 now0 100 reqC9a = none
      ∧ IppPrinter.handle_op p0 now0 100 reqC9b
        = some ⟨⟨1, 1⟩, StatusCode.ServerErrorOperationNotSupported, 10,
                [(DelimiterTag.OperationAttributes, p0.request_operation_attributes)], []⟩ := by
  decide

/-- A decodable request whose operation-id (0x0F) matches no `OperationID`
symbol (C10 counterexample data). -/
def reqC10cex : Operation := ⟨⟨1, 1⟩, 0x0F, 12, [], []⟩

/-- Counterexample for C10 as stated: for this decodable request `handle`
builds no response Operation at all (panic on the debug-print `unwrap`), so
no echo of `request_id`/version happens. -/
theorem claim_C10_counterexample :
    IppPrinter.handle_op p0 now0 100 reqC10cex = none := by decide

/-- Claim C10 (amended) — whenever `handle` produces a response (i.e. the
request's operation-id matches a known `OperationID` symbol), the response
echoes the request's `request_id` and fixes the version to 1.1, regardless of
the request's version and operation-id. -/
theorem claim_C10_response_echo (p : IppPrinter) (now : DT) (up : Int) (req r : Operation)
    (h : IppPrinter.handle_op p now up req = some r) :
    r.request_id = req.request_id ∧ r.version = ⟨1, 1⟩ := by
  unfold IppPrinter.handle_op at h
  split at h
  · exact Option.noConfusion h
  · split at h
    · injection h with h'
      subst h'
      exact ⟨rfl, rfl⟩
    · split at h
      · injection h with h'
        subst h'
        exact ⟨rfl, rfl⟩
      · split at h
        · injection h with h'
          subst h'
          exact ⟨rfl, rfl⟩
        · injection h with h'
          subst h'
          exact ⟨rfl, rfl⟩

/-- A decodable PrintJob request (C10 witness data). -/
def reqC10w : Operation := ⟨⟨1, 1⟩, 2, 11, [], []⟩

/-- The response `handle` produces for `reqC10w` (C10 witness data). -/
def respC10w : Operation :=
  ⟨⟨1, 1⟩, StatusCode.SuccessfulOk, 11,
   [(.OperationAttributes, p0.request_operation_attributes)], []⟩

/-- Witness for C10: the amended theorem applied at `reqC10w`, discharging
the `handle`-produces-a-response hypothesis by computation. -/
theorem claim_C10_witness :
    respC10w.request_id = reqC10w.request_id ∧ respC10w.version = ⟨1, 1⟩ :=
  claim_C10_response_echo p0 now0 100 reqC10w respC10w (by decide)

end Ipp







